import Mathlib

/-!
Verification development for the pixum gateway (src/lib.rs, src/main.rs,
src/routes/work.rs).

The artwork resolution pipeline of `src/routes/work.rs` is embedded shallowly:
every outbound interaction (redis cache, the metadata endpoint, asset fetches)
is supplied by an explicit environment of oracles, and each function returns
its result together with the list of side effects it issued, in program order.
Machine integers (`u16` for `sl` and the image index, `u32` for the work id)
are embedded as `Nat`, with wraparound made explicit where the source can
overflow.  String manipulation is re-implemented over `List Char` so that
every definition evaluates inside the kernel.
-/

namespace Pixum

deriving instance DecidableEq for Except

/-! ### Kernel-computable string helpers

Lean core `String.replace` and `String.splitOn` recurse over byte positions and
do not reduce in the kernel, so the string operations used by the source are
re-implemented structurally over `List Char`. -/

/-- Replace the leftmost, non-overlapping occurrences of `pat` by `rep`,
keeping the semantics of Rust `str::replace` for a non-empty pattern.  The
fuel argument is the length of the scanned list, which bounds the number of
steps. -/
def replace_fuel : Nat → List Char → List Char → List Char → List Char
  | 0, s, _, _ => s
  | _ + 1, [], _, _ => []
  | fuel + 1, c :: rest, pat, rep =>
    if pat ≠ [] ∧ pat.isPrefixOf (c :: rest) then
      rep ++ replace_fuel fuel ((c :: rest).drop pat.length) pat rep
    else
      c :: replace_fuel fuel rest pat rep

/-- Embedding of Rust `str::replace` (all occurrences, left to right). -/
def str_replace (s pat rep : String) : String :=
  String.mk (replace_fuel s.data.length s.data pat.data rep.data)

/-- The characters after the last occurrence of `c`; the whole list when `c`
does not occur.  This is `split(c).next_back()` of Rust. -/
def after_last (c : Char) (l : List Char) : List Char :=
  (l.reverse.takeWhile (fun x => x ≠ c)).reverse

/-- The characters up to and including the last occurrence of `c`; empty when
`c` does not occur. -/
def upto_last (c : Char) (l : List Char) : List Char :=
  (l.reverse.dropWhile (fun x => x ≠ c)).reverse

/-- Replace the extension of a file name (the part after its last dot), or
append a dotted extension when the name has none.  This models
`std::path::Path::with_extension` on the final path component for ordinary
file names such as `123_p2.jpg`. -/
def with_file_extension (name ext : List Char) : List Char :=
  if name.contains '.' then upto_last '.' name ++ ext
  else name ++ '.' :: ext

/-- Embedding of `Path::new(path).with_extension(ext).to_string_lossy()` as it
is used in the source: only the final `/`-separated component is touched. -/
def with_extension (path ext : String) : String :=
  String.mk (upto_last '/' path.data ++ with_file_extension (after_last '/' path.data) ext.data)

/-- The extension of the final path component, when it has one. -/
def extension_of (path : String) : Option (List Char) :=
  let name := after_last '/' path.data
  if name.contains '.' then some (after_last '.' name) else none

/-- Model of `mime_guess::from_path(path).first_or_octet_stream()` restricted
to the extensions that can occur in this program (the three probed image
formats plus the octet-stream fallback). -/
def first_or_octet_stream (path : String) : String :=
  match extension_of path with
  | some e =>
    if e = "jpg".data ∨ e = "jpeg".data then "image/jpeg"
    else if e = "png".data then "image/png"
    else if e = "gif".data then "image/gif"
    else "application/octet-stream"
  | none => "application/octet-stream"

/-- Model of Rust `str::parse::<u32>().ok()` for the digit strings produced by
the upstream: all characters must be decimal digits and the value must fit in
32 bits. -/
def digits_to_nat : Nat → List Char → Option Nat
  | acc, [] => some acc
  | acc, c :: rest =>
    if c.isDigit then digits_to_nat (acc * 10 + (c.toNat - 48)) rest else none

def parse_u32 (s : String) : Option Nat :=
  match s.data with
  | [] => none
  | l =>
    match digits_to_nat 0 l with
    | some n => if n < 4294967296 then some n else none
    | none => none

/-- Wraparound subtraction of one on `u16`: the semantics of the unchecked
`num_entries - 1` of the source in an overflow-unchecked build.  At zero the
subtraction wraps to 65535 instead of producing a count. -/
def u16_sub_one (n : Nat) : Nat := (n + 65535) % 65536

/-! ### Data model of `src/routes/work.rs` and `src/lib.rs` -/

/-- Embedding of `AppError` of `src/lib.rs`. -/
inductive AppError
  | InvalidUrl
  | ArtworkUnavailable
  | WrongArtworkUrl
  | ServerUnreachable
  | ZeroQuery
  | TooHighQuery (max : Nat)
  | Internal
deriving DecidableEq, Repr

/-- Embedding of `OtherWorkInfo` of `src/routes/work.rs`: one entry of `userIllusts`. -/
structure OtherWorkInfo where
  url : String
deriving DecidableEq, Repr

/-- Embedding of `WorkUrls` of `src/routes/work.rs`. -/
structure WorkUrls where
  original : Option String
deriving DecidableEq, Repr

/-- Embedding of `WorkInfo` of `src/routes/work.rs`; `num_entries` is the `sl` field (a
`u16`), `user_illusts` is the `userIllusts` map embedded as an association
list. -/
structure WorkInfo where
  illust_title : String
  upload_date : String
  num_entries : Nat
  urls : WorkUrls
  user_id : String
  user_name : String
  user_illusts : List (String × Option OtherWorkInfo)
deriving DecidableEq, Repr

/-- Embedding of `BodyData` of `src/routes/work.rs` (the untagged serde union). -/
inductive BodyData
  | Error (t : List Unit)
  | Success (w : WorkInfo)
deriving DecidableEq, Repr

/-- Embedding of `QueryResponse` of `src/routes/work.rs`. -/
structure QueryResponse where
  error : Bool
  body : BodyData
deriving DecidableEq, Repr

/-- Outcome of the metadata request of `fetch_work_info`, as seen through
reqwest: the send can fail, the JSON decoding can fail, or a `QueryResponse`
is decoded. -/
inductive MetaFetch
  | sendFail
  | decodeFail
  | decoded (q : QueryResponse)
deriving DecidableEq, Repr

/-- An outbound asset request: the URL and the `Referer` header value. -/
structure Request where
  url : String
  referer : String
deriving DecidableEq, Repr

/-- Outcome of one asset request: transport failure, or a response with an
HTTP status, a final URL (`response.url()`), and the outcome of reading the
body (`none` when `response.bytes()` fails). -/
inductive FetchOutcome
  | sendFail
  | resp (status : Nat) (finalUrl : String) (body : Option String)
deriving DecidableEq, Repr

/-- The reqwest `Response` surrogate returned by a successful `fetch_image`. -/
structure UpstreamResponse where
  url : String
  bytes : Option String
deriving DecidableEq, Repr

/-- The environment of a request: the redis cache (`none` covers both an
absent key and a failed `GET`, which the source treats alike), the metadata
endpoint, and the asset HTTP client. -/
structure Env where
  cache : String → Option String
  meta : Nat → MetaFetch
  http : Request → FetchOutcome

/-- Side effects issued by the pipeline, in program order.  `redisSet` keeps
the expiry option of the issued command: `Cmd::set(key, value)` of the source
carries no expiry, which is recorded as `none`. -/
inductive Effect
  | cacheGet (key : String)
  | redisSet (key value : String) (expiry : Option Nat)
  | unlink (key : String)
  | assetGet (req : Request)
  | metaGet (work_id : Nat)
deriving DecidableEq, Repr

/-- Embedding of `InfoResponse` of `src/routes/work.rs`. -/
structure InfoResponse where
  artist_name : String
  artist_id : Option Nat
  work_id : Nat
  title : String
  upload_time : String
  length : Nat
deriving DecidableEq, Repr

/-! ### Functions of `src/routes/work.rs` -/

/-- The `Referer` header value built at the top of `fetch_image_data`. -/
def referer_string (work_id : Nat) : String :=
  "https://www.pixiv.net/member_illust.php?mode=medium&illust_id=" ++ toString work_id

/-- The cache key `format!("{work_id}_{index}")`. -/
def cache_entry_name (work_id index : Nat) : String :=
  toString work_id ++ "_" ++ toString index

/-- The fallback file name `format!("{work_id}_p{}", index - 1)`. -/
def default_image_name (work_id index : Nat) : String :=
  toString work_id ++ "_p" ++ toString (index - 1)

/-- Embedding of `get_image_name_from_url` of the source.  Rust `split('/')` always yields
at least one item, so `next_back()` is always `Some` and the fallback branch
is unreachable; the embedding keeps the option to mirror the source. -/
def get_image_name_from_url (url : String) (fallback : String) : String :=
  match some (after_last '/' url.data) with
  | some name => String.mk name
  | none => fallback

/-- Embedding of `fetch_work_info` of the source, as a function of the metadata request
outcome: a failed send maps to `Internal`, a failed decode to
`ServerUnreachable`, then the `error` flag and the body shape are examined. -/
def fetch_work_info : MetaFetch → Except AppError WorkInfo
  | .sendFail => .error .Internal
  | .decodeFail => .error .ServerUnreachable
  | .decoded q =>
    if q.error then .error .ArtworkUnavailable
    else
      match q.body with
      | .Success w => .ok w
      | .Error _ => .error .ArtworkUnavailable

/-- Embedding of `fetch_image` of the source: issue a GET with the `Referer` header and map
the status: 200 to the response, 404 to `WrongArtworkUrl`, anything else to
`ArtworkUnavailable`; a transport failure maps to `Internal`. -/
def fetch_image (env : Env) (url : String) (referer : String) :
    Except AppError UpstreamResponse :=
  match env.http ⟨url, referer⟩ with
  | .sendFail => .error .Internal
  | .resp status finalUrl body =>
    if status = 200 then .ok ⟨finalUrl, body⟩
    else if status = 404 then .error .WrongArtworkUrl
    else .error .ArtworkUnavailable

/-- Test for an HTTP 200 outcome: `true` exactly when the outcome is an HTTP 200 response, i.e. when
`fetch_image` succeeds on it. -/
def is_ok_200 : FetchOutcome → Bool
  | .resp 200 _ _ => true
  | _ => false

/-- Embedding of `join_all(...).into_iter().find_map(Result::ok)`: the first success of the
probe results, in list order. -/
def first_ok {α : Type} : List (Except AppError α) → Option α
  | [] => none
  | .ok a :: _ => some a
  | .error _ :: rest => first_ok rest

/-- Embedding of `generate_http_headers` of the source. -/
def generate_http_headers (filename : String) (mime : String) :
    List (String × String) :=
  [("Content-Disposition", "inline; filename=\"" ++ filename ++ "\""),
   ("Content-Type", mime),
   ("Cache-Control", "max-age=31536000, public, immutable, no-transform")]

/-- The `p0` token substitution applied to a candidate URL in the probing
branch of `fetch_image_data`. -/
def derived_target (url : String) (work_id index : Nat) : String :=
  str_replace url (toString work_id ++ "_p0")
    (toString work_id ++ "_p" ++ toString (index - 1))

/-- The three probed extensions, in the order the source lists them. -/
def probe_exts : List String := ["jpg", "png", "gif"]

/-- The three candidate links probed in the unknown-URL branch. -/
def probe_links (url : String) (work_id index : Nat) : List String :=
  probe_exts.map (fun ext => with_extension (derived_target url work_id index) ext)

/-- The probed extension at each of the three positions. -/
def ext_at : Fin 3 → String
  | 0 => "jpg"
  | 1 => "png"
  | 2 => "gif"

/-- The candidate link at probe position `i`. -/
def probe_link (url : String) (work_id index : Nat) (i : Fin 3) : String :=
  with_extension (derived_target url work_id index) (ext_at i)

/-- Embedding of `fetch_image_data` of the source.  In the known-URL branch the URL is
fetched as given and every `fetch_image` failure is remapped to `Internal`
(`map_err(|_| AppError::Internal)?`); on success the URL is cached when
`update_cache` holds and the bytes are returned.  In the unknown-URL branch
the `p0` substitution is applied, the three extension probes are issued, the
first success wins, and its final URL is cached. -/
def fetch_image_data (env : Env) (url : String) (work_id index : Nat)
    (url_known update_cache : Bool) :
    Except AppError (String × String) × List Effect :=
  let referer := referer_string work_id
  match url_known with
  | true =>
    let trace : List Effect := [.assetGet ⟨url, referer⟩]
    match fetch_image env url referer with
    | .error _ => (.error .Internal, trace)
    | .ok response =>
      match response.bytes with
      | some data =>
        (.ok (get_image_name_from_url url (default_image_name work_id index), data),
         match update_cache with
         | true => trace ++ [.redisSet (cache_entry_name work_id index) url none]
         | false => trace)
      | none => (.error .Internal, trace)
  | false =>
    let links := probe_links url work_id index
    let trace : List Effect := links.map (fun l => Effect.assetGet ⟨l, referer⟩)
    match first_ok (links.map (fun l => fetch_image env l referer)) with
    | some response =>
      match response.bytes with
      | some data =>
        (.ok (get_image_name_from_url response.url (default_image_name work_id index), data),
         trace ++ [.redisSet (cache_entry_name work_id index) response.url none])
      | none => (.error .Internal, trace)
    | none => (.error .ArtworkUnavailable, trace)

/-- The four textual substitutions deriving an original-image candidate from a
thumbnail URL. -/
def thumb_to_original (url : String) : String :=
  str_replace (str_replace (str_replace (str_replace url
    "c/250x250_80_a2/img-master" "img-original")
    "c/250x250_80_a2/custom-thumb" "img-original")
    "_square1200" "") "_custom1200" ""

/-- Embedding of `get_image_data` of the source: the per-request pipeline.  A zero index is
rejected; a cache hit is verified by a known-URL fetch, and only a
`WrongArtworkUrl` failure unlinks the entry (the error is returned either
way); on a miss the metadata is fetched, the index is validated against
`num_entries - 1`, and the asset is fetched through the known-URL branch when
`urls.original` is present, otherwise through the probing branch on the
derived thumbnail candidate. -/
def get_image_data (env : Env) (work_id index : Nat) :
    Except AppError (List (String × String) × String) × List Effect :=
  if index = 0 then (.error .ZeroQuery, [])
  else
    let key := cache_entry_name work_id index
    match env.cache key with
    | some url =>
      match fetch_image_data env url work_id index true false with
      | (.ok (file_name, image_data), t) =>
        (.ok (generate_http_headers file_name (first_or_octet_stream url), image_data),
         .cacheGet key :: t)
      | (.error e, t) =>
        if e = .WrongArtworkUrl then
          (.error e, .cacheGet key :: t ++ [.unlink key])
        else
          (.error e, .cacheGet key :: t)
    | none =>
      match fetch_work_info (env.meta work_id) with
      | .error e => (.error e, [.cacheGet key, .metaGet work_id])
      | .ok data =>
        if index > u16_sub_one data.num_entries then
          (.error (.TooHighQuery (u16_sub_one data.num_entries)),
           [.cacheGet key, .metaGet work_id])
        else
          match data.urls.original with
          | some link =>
            match fetch_image_data env link work_id index true true with
            | (.ok (file_name, image_data), t) =>
              (.ok (generate_http_headers file_name (first_or_octet_stream link), image_data),
               [.cacheGet key, .metaGet work_id] ++ t)
            | (.error e, t) => (.error e, [.cacheGet key, .metaGet work_id] ++ t)
          | none =>
            match data.user_illusts.lookup (toString work_id) with
            | none => (.error .ArtworkUnavailable, [.cacheGet key, .metaGet work_id])
            | some none => (.error .ArtworkUnavailable, [.cacheGet key, .metaGet work_id])
            | some (some other) =>
              let target_link := thumb_to_original other.url
              match fetch_image_data env target_link work_id index false true with
              | (.ok (file_name, image_data), t) =>
                (.ok (generate_http_headers file_name (first_or_octet_stream target_link), image_data),
                 [.cacheGet key, .metaGet work_id] ++ t)
              | (.error e, t) => (.error e, [.cacheGet key, .metaGet work_id] ++ t)

/-- The `info` handler: a failed path parse (`none`) yields `InvalidUrl`;
otherwise the metadata is fetched and the `InfoResponse` payload is returned
together with the adjusted `Content-Type` header value. -/
def info (env : Env) (work_id : Option Nat) :
    Except AppError (InfoResponse × String) × List Effect :=
  match work_id with
  | some id =>
    match fetch_work_info (env.meta id) with
    | .error e => (.error e, [.metaGet id])
    | .ok data =>
      (.ok ({ artist_name := data.user_name
              artist_id := parse_u32 data.user_id
              work_id := id
              title := data.illust_title
              upload_time := data.upload_date
              length := u16_sub_one data.num_entries },
            "application/json; charset=utf-8"),
       [.metaGet id])
  | none => (.error .InvalidUrl, [])

/-- The `source` handler: a failed path parse yields `InvalidUrl`, a failed
pool connection yields `Internal`, otherwise `get_image_data` runs. -/
def source (env : Env) (pool_ok : Bool) (work_info : Option (Nat × Nat)) :
    Except AppError (List (String × String) × String) × List Effect :=
  match work_info with
  | some (work_id, index) =>
    if pool_ok then get_image_data env work_id index
    else (.error .Internal, [])
  | none => (.error .InvalidUrl, [])

/-- Embedding of `AppError::into_response` of `src/lib.rs`: the HTTP status code and the
rendered message. -/
def error_response : AppError → Nat × String
  | .InvalidUrl => (404, "The requested URL is invalid.")
  | .ArtworkUnavailable =>
    (404, "Information of the requested work could not be retrieved. The work might be deleted or have limited visibility.")
  | .WrongArtworkUrl =>
    (404, "Information of the requested work could not be retrieved. The work might be deleted or have limited visibility.")
  | .ServerUnreachable => (502, "Failed to get response from Pixiv server.")
  | .ZeroQuery => (400, "The index of the requested image must be at least 1.")
  | .TooHighQuery max =>
    (400,
     if max > 1 then
       "The index of the requested image is too high; there are " ++ toString max ++
         " images in this collection."
     else
       "The index of the requested image is too high; there is 1 image in this collection.")
  | .Internal => (500, "An internal server error occurred.")

/-! ### Concrete test fixtures

One environment per claim, used by the closed counterexample and witness
theorems below.  An environment fixes the cache contents, the metadata
endpoint, and the asset HTTP oracle. -/

/-- Decidable substring test: `true` when `pat` occurs contiguously in `l`. -/
def is_sub (pat : List Char) : List Char → Bool
  | [] => pat.isEmpty
  | c :: rest => pat.isPrefixOf (c :: rest) || is_sub pat rest

/-- Metadata of the C1 example work: five reported entries and a direct
original URL for the first image. -/
def c1_work : WorkInfo :=
  { illust_title := "T", upload_date := "D", num_entries := 5,
    urls := ⟨some "https://i.example/img/123_p0.png"⟩,
    user_id := "42", user_name := "alice", user_illusts := [] }

/-- Environment of the C1 example: empty cache, metadata for work 123, and an
upstream that serves both the first and the third image URL. -/
def c1_env : Env :=
  { cache := fun _ => none
    meta := fun i => if i = 123 then .decoded ⟨false, .Success c1_work⟩ else .sendFail
    http := fun r =>
      if r.url = "https://i.example/img/123_p0.png" then .resp 200 r.url (some "IMAGE1")
      else if r.url = "https://i.example/img/123_p2.png" then .resp 200 r.url (some "IMAGE3")
      else .resp 404 r.url none }

/-- Environment of the C2 run: a cached URL for work 7 index 1 whose
verify-fetch returns 404. -/
def c2_env : Env :=
  { cache := fun k => if k = "7_1" then some "https://i.example/a/7_p0.png" else none
    meta := fun _ => .sendFail
    http := fun r => .resp 404 r.url none }

/-- Metadata of the C4 witness work: three reported entries, direct URL. -/
def c4_work : WorkInfo :=
  { illust_title := "T4", upload_date := "D4", num_entries := 3,
    urls := ⟨some "https://i.example/img/9_p0.png"⟩,
    user_id := "1", user_name := "carol", user_illusts := [] }

/-- Environment of the C4 witness: empty cache, metadata for work 9, and a
reachable upstream for the direct URL. -/
def c4_env : Env :=
  { cache := fun _ => none
    meta := fun i => if i = 9 then .decoded ⟨false, .Success c4_work⟩ else .sendFail
    http := fun r =>
      if r.url = "https://i.example/img/9_p0.png" then .resp 200 r.url (some "B4")
      else .resp 404 r.url none }

/-- Candidate base URL probed in the C5 witness. -/
def c5_url : String := "https://i.example/img-original/img/55_p0.jpg"

/-- Environment of the C5 witness: only the `.png` probe (the middle of the
three positions) returns 200. -/
def c5_env : Env :=
  { cache := fun _ => none
    meta := fun _ => .sendFail
    http := fun r =>
      if r.url = "https://i.example/img-original/img/55_p0.png" then .resp 200 r.url (some "B5")
      else .resp 404 r.url none }

/-- Metadata of the C6 run: two reported entries, direct URL for work 77. -/
def c6_work : WorkInfo :=
  { illust_title := "T6", upload_date := "D6", num_entries := 2,
    urls := ⟨some "https://i.example/img/77_p0.jpg"⟩,
    user_id := "8", user_name := "dora", user_illusts := [] }

/-- Environment of the C6 run: empty cache, metadata for work 77, reachable
direct URL, so the resolution succeeds and issues its cache write. -/
def c6_env : Env :=
  { cache := fun _ => none
    meta := fun i => if i = 77 then .decoded ⟨false, .Success c6_work⟩ else .sendFail
    http := fun r =>
      if r.url = "https://i.example/img/77_p0.jpg" then .resp 200 r.url (some "B6")
      else .resp 404 r.url none }

/-- Environment of the C7 witness: a cache hit for work 3 index 1 whose
verify-fetch succeeds, so exactly one asset request is issued. -/
def c7_env : Env :=
  { cache := fun k => if k = "3_1" then some "https://i.example/x/3_p0.gif" else none
    meta := fun _ => .sendFail
    http := fun r =>
      if r.url = "https://i.example/x/3_p0.gif" then .resp 200 r.url (some "B7")
      else .resp 404 r.url none }

/-- Metadata of the C8 run: a work with a direct original URL, so a resolved
first-image asset URL exists and could have been reported. -/
def c8_work : WorkInfo :=
  { illust_title := "Sunset", upload_date := "2023-01-01T00:00:00+00:00", num_entries := 3,
    urls := ⟨some "https://i.example/img/321_p0.png"⟩,
    user_id := "9", user_name := "bob", user_illusts := [] }

/-- Environment of the C8 run. -/
def c8_env : Env :=
  { cache := fun _ => none
    meta := fun i => if i = 321 then .decoded ⟨false, .Success c8_work⟩ else .sendFail
    http := fun r => .resp 404 r.url none }

/-- The `InfoResponse` payload the `info` handler produces for the C8 run. -/
def c8_payload : InfoResponse :=
  { artist_name := "bob", artist_id := some 9, work_id := 321,
    title := "Sunset", upload_time := "2023-01-01T00:00:00+00:00", length := 2 }

/-- Predicate shaped after the words of claim C8: the diagnostic response
contains the resolved asset URL, i.e. the URL occurs in one of the string
fields of the payload. -/
def info_mentions_url (r : InfoResponse) (u : String) : Bool :=
  is_sub u.data r.artist_name.data || is_sub u.data r.title.data ||
    is_sub u.data r.upload_time.data

/-- Metadata of the C10 witness work: the upstream reports `sl = 0`, below
the documented minimum. -/
def c10_work : WorkInfo :=
  { illust_title := "T10", upload_date := "D10", num_entries := 0,
    urls := ⟨none⟩, user_id := "2", user_name := "eve", user_illusts := [] }

/-- Environment of the C10 witness: empty cache and `sl = 0` metadata for
work 4. -/
def c10_env : Env :=
  { cache := fun _ => none
    meta := fun i => if i = 4 then .decoded ⟨false, .Success c10_work⟩ else .sendFail
    http := fun r => .resp 404 r.url none }

/-! ### Helper lemmas -/

/-- On the `u16` domain, the wraparound subtraction agrees with the intended
corrected count exactly when at least one entry is reported. -/
lemma u16_sub_one_eq {n : Nat} (h1 : 1 ≤ n) (h2 : n ≤ 65535) :
    u16_sub_one n = n - 1 := by
  unfold u16_sub_one
  omega

/-- A 200 outcome makes `fetch_image` return the response. -/
lemma fetch_image_ok (env : Env) (url referer finalUrl : String) (body : Option String)
    (h : env.http ⟨url, referer⟩ = .resp 200 finalUrl body) :
    fetch_image env url referer = .ok ⟨finalUrl, body⟩ := by
  unfold fetch_image
  rw [h]
  rfl

/-- Any outcome other than a 200 response makes `fetch_image` fail. -/
lemma fetch_image_not_ok (env : Env) (url referer : String)
    (h : is_ok_200 (env.http ⟨url, referer⟩) = false) :
    ∃ e, fetch_image env url referer = .error e := by
  unfold fetch_image
  cases henv : env.http ⟨url, referer⟩ with
  | sendFail => exact ⟨.Internal, rfl⟩
  | resp s f b =>
    rw [henv] at h
    have h200 : s ≠ 200 := by
      intro hs
      subst hs
      simp [is_ok_200] at h
    dsimp only
    rw [if_neg h200]
    by_cases h404 : s = 404
    · rw [if_pos h404]
      exact ⟨_, rfl⟩
    · rw [if_neg h404]
      exact ⟨_, rfl⟩

/-- The three probed candidate links, positionally. -/
lemma probe_links_eq (url : String) (work_id index : Nat) :
    probe_links url work_id index =
      [probe_link url work_id index 0, probe_link url work_id index 1,
       probe_link url work_id index 2] := rfl

lemma fetch_image_data_trace (env : Env) (url : String) (wid idx : Nat) (uk uc : Bool) :
    ∀ e ∈ (fetch_image_data env url wid idx uk uc).2,
      (∃ r, e = Effect.assetGet r ∧ r.referer = referer_string wid) ∨
      (∃ v, e = Effect.redisSet (cache_entry_name wid idx) v none) := by
  intro e he
  unfold fetch_image_data at he
  cases uk
  · dsimp only at he
    split at he
    · rename_i response hfo
      cases hb : response.bytes with
      | some d =>
        rw [hb] at he
        dsimp only at he
        simp only [List.mem_append, List.mem_map, List.mem_singleton] at he
        rcases he with ⟨l, _, rfl⟩ | rfl
        · exact Or.inl ⟨_, rfl, rfl⟩
        · exact Or.inr ⟨_, rfl⟩
      | none =>
        rw [hb] at he
        dsimp only at he
        simp only [List.mem_map] at he
        obtain ⟨l, _, rfl⟩ := he
        exact Or.inl ⟨_, rfl, rfl⟩
    · simp only [List.mem_map] at he
      obtain ⟨l, _, rfl⟩ := he
      exact Or.inl ⟨_, rfl, rfl⟩
  · dsimp only at he
    split at he
    · simp only [List.mem_singleton] at he
      subst he
      exact Or.inl ⟨_, rfl, rfl⟩
    · rename_i response hfi
      cases hb : response.bytes with
      | some d =>
        rw [hb] at he
        dsimp only at he
        cases uc
        · simp only [List.mem_singleton] at he
          subst he
          exact Or.inl ⟨_, rfl, rfl⟩
        · simp only [List.mem_append, List.mem_singleton] at he
          rcases he with rfl | rfl
          · exact Or.inl ⟨_, rfl, rfl⟩
          · exact Or.inr ⟨_, rfl⟩
      | none =>
        rw [hb] at he
        simp only [List.mem_singleton] at he
        subst he
        exact Or.inl ⟨_, rfl, rfl⟩


lemma trace_disj_of_fid (env : Env) (wid idx : Nat) (u : String) (uk uc : Bool)
    {e : Effect} {r : Except AppError (String × String)} {t : List Effect}
    (hfid : fetch_image_data env u wid idx uk uc = (r, t)) (he : e ∈ t) :
    (∃ r2, e = Effect.assetGet r2 ∧ r2.referer = referer_string wid) ∨
    (∃ v, e = Effect.redisSet (cache_entry_name wid idx) v none) :=
  fetch_image_data_trace env u wid idx uk uc e (by rw [hfid]; exact he)

lemma get_image_data_trace (env : Env) (wid idx : Nat) :
    ∀ e ∈ (get_image_data env wid idx).2,
      e = Effect.cacheGet (cache_entry_name wid idx) ∨
      e = Effect.unlink (cache_entry_name wid idx) ∨
      e = Effect.metaGet wid ∨
      (∃ r, e = Effect.assetGet r ∧ r.referer = referer_string wid) ∨
      (∃ v, e = Effect.redisSet (cache_entry_name wid idx) v none) := by
  intro e he
  unfold get_image_data at he
  by_cases h0 : idx = 0
  · rw [if_pos h0] at he
    simp at he
  · rw [if_neg h0] at he
    dsimp only at he
    cases hcache : env.cache (cache_entry_name wid idx) with
    | some url =>
      rw [hcache] at he
      dsimp only at he
      rcases hfid : fetch_image_data env url wid idx true false with ⟨r, t⟩
      rw [hfid] at he
      cases r with
      | ok val =>
        rcases val with ⟨fn, d⟩
        dsimp only at he
        rw [List.mem_cons] at he
        rcases he with rfl | he
        · exact Or.inl rfl
        · rcases trace_disj_of_fid env wid idx url true false hfid he with h | h
          · exact Or.inr (Or.inr (Or.inr (Or.inl h)))
          · exact Or.inr (Or.inr (Or.inr (Or.inr h)))
      | error err =>
        dsimp only at he
        by_cases hw : err = AppError.WrongArtworkUrl
        · rw [if_pos hw] at he
          dsimp only at he
          rw [List.mem_append, List.mem_cons, List.mem_singleton] at he
          rcases he with (rfl | he) | rfl
          · exact Or.inl rfl
          · rcases trace_disj_of_fid env wid idx url true false hfid he with h | h
            · exact Or.inr (Or.inr (Or.inr (Or.inl h)))
            · exact Or.inr (Or.inr (Or.inr (Or.inr h)))
          · exact Or.inr (Or.inl rfl)
        · rw [if_neg hw] at he
          dsimp only at he
          rw [List.mem_cons] at he
          rcases he with rfl | he
          · exact Or.inl rfl
          · rcases trace_disj_of_fid env wid idx url true false hfid he with h | h
            · exact Or.inr (Or.inr (Or.inr (Or.inl h)))
            · exact Or.inr (Or.inr (Or.inr (Or.inr h)))
    | none =>
      rw [hcache] at he
      dsimp only at he
      cases hmeta : fetch_work_info (env.meta wid) with
      | error err =>
        rw [hmeta] at he
        rw [List.mem_cons, List.mem_singleton] at he
        rcases he with rfl | rfl
        · exact Or.inl rfl
        · exact Or.inr (Or.inr (Or.inl rfl))
      | ok data =>
        rw [hmeta] at he
        dsimp only at he
        by_cases hg : idx > u16_sub_one data.num_entries
        · rw [if_pos hg] at he
          rw [List.mem_cons, List.mem_singleton] at he
          rcases he with rfl | rfl
          · exact Or.inl rfl
          · exact Or.inr (Or.inr (Or.inl rfl))
        · rw [if_neg hg] at he
          cases hu : data.urls.original with
          | some link =>
            rw [hu] at he
            dsimp only at he
            rcases hfid : fetch_image_data env link wid idx true true with ⟨r, t⟩
            rw [hfid] at he
            cases r with
            | ok val =>
              rcases val with ⟨fn, d⟩
              dsimp only at he
              rw [List.mem_append, List.mem_cons, List.mem_singleton] at he
              rcases he with (rfl | rfl) | he
              · exact Or.inl rfl
              · exact Or.inr (Or.inr (Or.inl rfl))
              · rcases trace_disj_of_fid env wid idx link true true hfid he with h | h
                · exact Or.inr (Or.inr (Or.inr (Or.inl h)))
                · exact Or.inr (Or.inr (Or.inr (Or.inr h)))
            | error err =>
              dsimp only at he
              rw [List.mem_append, List.mem_cons, List.mem_singleton] at he
              rcases he with (rfl | rfl) | he
              · exact Or.inl rfl
              · exact Or.inr (Or.inr (Or.inl rfl))
              · rcases trace_disj_of_fid env wid idx link true true hfid he with h | h
                · exact Or.inr (Or.inr (Or.inr (Or.inl h)))
                · exact Or.inr (Or.inr (Or.inr (Or.inr h)))
          | none =>
            rw [hu] at he
            dsimp only at he
            cases hl : List.lookup (toString wid) data.user_illusts with
            | none =>
              rw [hl] at he
              rw [List.mem_cons, List.mem_singleton] at he
              rcases he with rfl | rfl
              · exact Or.inl rfl
              · exact Or.inr (Or.inr (Or.inl rfl))
            | some o =>
              rw [hl] at he
              cases o with
              | none =>
                rw [List.mem_cons, List.mem_singleton] at he
                rcases he with rfl | rfl
                · exact Or.inl rfl
                · exact Or.inr (Or.inr (Or.inl rfl))
              | some other =>
                dsimp only at he
                rcases hfid : fetch_image_data env (thumb_to_original other.url) wid idx false true
                  with ⟨r, t⟩
                rw [hfid] at he
                cases r with
                | ok val =>
                  rcases val with ⟨fn, d⟩
                  dsimp only at he
                  rw [List.mem_append, List.mem_cons, List.mem_singleton] at he
                  rcases he with (rfl | rfl) | he
                  · exact Or.inl rfl
                  · exact Or.inr (Or.inr (Or.inl rfl))
                  · rcases trace_disj_of_fid env wid idx (thumb_to_original other.url) false true
                        hfid he with h | h
                    · exact Or.inr (Or.inr (Or.inr (Or.inl h)))
                    · exact Or.inr (Or.inr (Or.inr (Or.inr h)))
                | error err =>
                  dsimp only at he
                  rw [List.mem_append, List.mem_cons, List.mem_singleton] at he
                  rcases he with (rfl | rfl) | he
                  · exact Or.inl rfl
                  · exact Or.inr (Or.inr (Or.inl rfl))
                  · rcases trace_disj_of_fid env wid idx (thumb_to_original other.url) false true
                        hfid he with h | h
                    · exact Or.inr (Or.inr (Or.inr (Or.inl h)))
                    · exact Or.inr (Or.inr (Or.inr (Or.inr h)))



/-- Case A of the pipeline characterized end to end: on a cache miss with
successfully decoded metadata, a passing index check, a present
`urls.original`, and a 200 response with bytes for that URL, the run returns
the fetched bytes with the derived headers and issues exactly a cache read, a
metadata fetch, one asset fetch of the metadata URL, and a no-expiry cache
write of that URL. -/
lemma get_image_data_case_a (env : Env) (wid idx : Nat) (w : WorkInfo) (link d : String)
    (h0 : idx ≠ 0)
    (hcache : env.cache (cache_entry_name wid idx) = none)
    (hmeta : env.meta wid = .decoded ⟨false, .Success w⟩)
    (hguard : ¬ idx > u16_sub_one w.num_entries)
    (hu : w.urls.original = some link)
    (hh : env.http ⟨link, referer_string wid⟩ = .resp 200 link (some d)) :
    get_image_data env wid idx =
      (.ok (generate_http_headers
              (get_image_name_from_url link (default_image_name wid idx))
              (first_or_octet_stream link), d),
       [.cacheGet (cache_entry_name wid idx), .metaGet wid,
        .assetGet ⟨link, referer_string wid⟩,
        .redisSet (cache_entry_name wid idx) link none]) := by
  have hfw : fetch_work_info (env.meta wid) = .ok w := by
    rw [hmeta]
    rfl
  have hfi : fetch_image env link (referer_string wid) = .ok ⟨link, some d⟩ :=
    fetch_image_ok env link _ link (some d) hh
  have hfid : fetch_image_data env link wid idx true true =
      (.ok (get_image_name_from_url link (default_image_name wid idx), d),
       [.assetGet ⟨link, referer_string wid⟩,
        .redisSet (cache_entry_name wid idx) link none]) := by
    unfold fetch_image_data
    dsimp only
    rw [hfi]
    rfl
  unfold get_image_data
  rw [if_neg h0]
  dsimp only
  rw [hcache, hfw]
  dsimp only
  rw [if_neg hguard, hu]
  dsimp only
  rw [hfid]
  rfl

/-- The asset-fetch stage never produces a `TooHighQuery` error: that error
kind can only originate from the index validation of `get_image_data`. -/
lemma fetch_image_data_ne_toohigh (env : Env) (url : String) (wid idx : Nat) (uk uc : Bool)
    (m : Nat) : (fetch_image_data env url wid idx uk uc).1 ≠ .error (.TooHighQuery m) := by
  unfold fetch_image_data
  cases uk
  · dsimp only
    split
    · split <;> simp
    · simp
  · dsimp only
    split
    · simp
    · split <;> simp

/-- Success of the `info` handler characterized: decoded metadata yields the
`InfoResponse` payload built from the work fields, with the adjusted JSON
content type and exactly one metadata fetch. -/
lemma info_ok (env : Env) (wid : Nat) (w : WorkInfo)
    (hm : env.meta wid = .decoded ⟨false, .Success w⟩) :
    info env (some wid) =
      (.ok ({ artist_name := w.user_name, artist_id := parse_u32 w.user_id,
              work_id := wid, title := w.illust_title, upload_time := w.upload_date,
              length := u16_sub_one w.num_entries },
            "application/json; charset=utf-8"),
       [.metaGet wid]) := by
  have hfw : fetch_work_info (env.meta wid) = .ok w := by
    rw [hm]
    rfl
  unfold info
  dsimp only
  rw [hfw]

/-! ### Claim theorems -/

set_option maxRecDepth 4096

/-- Claim C1.  The claim states that a Case A resolution (metadata carries
`urls.original`) fetches the original URL with the token `{work_id}_p0`
replaced by `{work_id}_p{n-1}`, so that index 3 of the example work fetches a
URL ending in `123_p2.png`.  The code performs no such substitution in the
known-URL branch: at the spec example (original URL
`https://i.example/img/123_p0.png`, index 3) the run fetches and caches the
unmodified `p0` URL, returns the first image bytes, and never requests the
`p2` URL, although the environment would have served it. -/
theorem c1_case_a_ignores_index_substitution :
    get_image_data c1_env 123 3 =
      (.ok (generate_http_headers "123_p0.png" "image/png", "IMAGE1"),
       [.cacheGet "123_3", .metaGet 123,
        .assetGet ⟨"https://i.example/img/123_p0.png", referer_string 123⟩,
        .redisSet "123_3" "https://i.example/img/123_p0.png" none]) ∧
    Effect.assetGet ⟨"https://i.example/img/123_p2.png", referer_string 123⟩ ∉
      (get_image_data c1_env 123 3).2 ∧
    c1_env.http ⟨"https://i.example/img/123_p2.png", referer_string 123⟩ =
      .resp 200 "https://i.example/img/123_p2.png" (some "IMAGE3") := by
  refine ⟨by decide, by decide, by decide⟩

/-- Claim C2.  The claim states that a cache hit whose verify-fetch returns
404 has its entry deleted and resolution falls through to a fresh metadata
fetch in the same request.  In the code the known-URL branch remaps every
`fetch_image` failure, including the 404 `WrongArtworkUrl` signal, to
`Internal` before `get_image_data` checks for `WrongArtworkUrl`, so on a
cached URL that 404s the run returns `Internal`, issues no unlink, and
fetches no metadata. -/
theorem c2_stale_hit_not_invalidated :
    c2_env.cache "7_1" = some "https://i.example/a/7_p0.png" ∧
    c2_env.http ⟨"https://i.example/a/7_p0.png", referer_string 7⟩ =
      .resp 404 "https://i.example/a/7_p0.png" none ∧
    get_image_data c2_env 7 1 =
      (.error .Internal,
       [.cacheGet "7_1", .assetGet ⟨"https://i.example/a/7_p0.png", referer_string 7⟩]) ∧
    Effect.unlink "7_1" ∉ (get_image_data c2_env 7 1).2 ∧
    Effect.metaGet 7 ∉ (get_image_data c2_env 7 1).2 := by
  refine ⟨rfl, by decide, by decide, by decide, by decide⟩

/-- Claim C3, counterexample.  The claim states that a connection error on
the metadata fetch yields `ServerUnreachable`; in the code the send error is
mapped to `Internal`. -/
theorem c3_connection_error_is_internal :
    fetch_work_info .sendFail = .error .Internal ∧
    fetch_work_info .sendFail ≠ .error .ServerUnreachable := by
  refine ⟨rfl, by decide⟩

/-- Claim C3, amended.  The metadata error mapping of the code: a failed send
yields `Internal`; a response whose body fails to decode yields
`ServerUnreachable`; a decoded body with the error flag set, or whose body
matches the error shape, yields `ArtworkUnavailable`; a decoded success body
is returned. -/
theorem c3_metadata_error_mapping :
    fetch_work_info .sendFail = .error .Internal ∧
    fetch_work_info .decodeFail = .error .ServerUnreachable ∧
    (∀ b : BodyData, fetch_work_info (.decoded ⟨true, b⟩) = .error .ArtworkUnavailable) ∧
    (∀ t : List Unit, fetch_work_info (.decoded ⟨false, .Error t⟩) = .error .ArtworkUnavailable) ∧
    (∀ w : WorkInfo, fetch_work_info (.decoded ⟨false, .Success w⟩) = .ok w) := by
  refine ⟨rfl, rfl, ?_, ?_, ?_⟩ <;> intro x <;> rfl

/-- Claim C4.  On a cache miss with successfully fetched metadata reporting
between 1 and 65535 entries, any index above the corrected maximum
`num_entries - 1` fails with `TooHighQuery` carrying exactly that maximum and
no asset fetch is issued; requesting exactly the maximum (when it is a valid
positive index) proceeds to the asset fetch and succeeds given a reachable
upstream serving the direct URL. -/
theorem c4_index_validation (env : Env) (wid idx : Nat) (w : WorkInfo)
    (hcache : env.cache (cache_entry_name wid idx) = none)
    (hmeta : env.meta wid = .decoded ⟨false, .Success w⟩)
    (h1 : 1 ≤ w.num_entries) (h2 : w.num_entries ≤ 65535) :
    (idx > w.num_entries - 1 →
      (get_image_data env wid idx).1 = .error (.TooHighQuery (w.num_entries - 1)) ∧
      ∀ r, Effect.assetGet r ∉ (get_image_data env wid idx).2) ∧
    (∀ link d, idx = w.num_entries - 1 → 1 ≤ idx →
      w.urls.original = some link →
      env.http ⟨link, referer_string wid⟩ = .resp 200 link (some d) →
      (get_image_data env wid idx).1 =
        .ok (generate_http_headers (get_image_name_from_url link (default_image_name wid idx))
              (first_or_octet_stream link), d) ∧
      Effect.assetGet ⟨link, referer_string wid⟩ ∈ (get_image_data env wid idx).2) := by
  have hfw : fetch_work_info (env.meta wid) = .ok w := by
    rw [hmeta]
    rfl
  have hu16 : u16_sub_one w.num_entries = w.num_entries - 1 := u16_sub_one_eq h1 h2
  constructor
  · intro hgt
    have h0 : idx ≠ 0 := by omega
    have hres : get_image_data env wid idx =
        (.error (.TooHighQuery (w.num_entries - 1)),
         [.cacheGet (cache_entry_name wid idx), .metaGet wid]) := by
      unfold get_image_data
      rw [if_neg h0]
      dsimp only
      rw [hcache, hfw]
      dsimp only
      rw [hu16, if_pos hgt]
    rw [hres]
    refine ⟨rfl, ?_⟩
    intro r h
    simp at h
  · intro link d hidx h1i hu hh
    have h0 : idx ≠ 0 := by omega
    have hguard : ¬ idx > u16_sub_one w.num_entries := by
      rw [hu16]
      omega
    have hres := get_image_data_case_a env wid idx w link d h0 hcache hmeta hguard hu hh
    rw [hres]
    exact ⟨rfl, by simp⟩

/-- Witness for claim C4, at a work reporting 3 entries (corrected maximum
2): index 3 fails with `TooHighQuery 2`, index 2 succeeds. -/
theorem c4_witness :
    (get_image_data c4_env 9 3).1 = .error (.TooHighQuery 2) ∧
    (get_image_data c4_env 9 2).1 =
      .ok (generate_http_headers "9_p0.png" "image/png", "B4") := by
  constructor
  · exact ((c4_index_validation c4_env 9 3 c4_work rfl (by decide) (by decide) (by decide)).1
      (by decide)).1
  · exact ((c4_index_validation c4_env 9 2 c4_work rfl (by decide) (by decide) (by decide)).2
      "https://i.example/img/9_p0.png" "B4" (by decide) (by decide) rfl (by decide)).1

/-- Claim C5.  The probe law of the unknown-URL branch: whichever of the
three probe positions (jpg, png, gif) is the only one answering 200 with
bytes, the engine returns that probe response bytes and issues a no-expiry
cache write of that probe URL; if no position answers 200 — individual
transport failures included — the result is `ArtworkUnavailable`. -/
theorem c5_probe_law (env : Env) (url : String) (wid idx : Nat) :
    (∀ i : Fin 3, ∀ d : String,
      env.http ⟨probe_link url wid idx i, referer_string wid⟩ =
        .resp 200 (probe_link url wid idx i) (some d) →
      (∀ j : Fin 3, j ≠ i →
        is_ok_200 (env.http ⟨probe_link url wid idx j, referer_string wid⟩) = false) →
      (fetch_image_data env url wid idx false true).1 =
        .ok (get_image_name_from_url (probe_link url wid idx i)
              (default_image_name wid idx), d) ∧
      Effect.redisSet (cache_entry_name wid idx) (probe_link url wid idx i) none ∈
        (fetch_image_data env url wid idx false true).2) ∧
    ((∀ j : Fin 3,
        is_ok_200 (env.http ⟨probe_link url wid idx j, referer_string wid⟩) = false) →
      (fetch_image_data env url wid idx false true).1 = .error .ArtworkUnavailable) := by
  constructor
  · intro i d hwin hlose
    fin_cases i
    · have hfi : fetch_image env (probe_link url wid idx 0) (referer_string wid) =
          .ok ⟨probe_link url wid idx 0, some d⟩ :=
        fetch_image_ok env _ _ _ _ hwin
      unfold fetch_image_data
      dsimp only
      rw [probe_links_eq]
      dsimp only [List.map]
      rw [hfi]
      dsimp only [first_ok]
      exact ⟨rfl, List.mem_append_right _ (List.mem_singleton.mpr rfl)⟩
    · have hfi : fetch_image env (probe_link url wid idx 1) (referer_string wid) =
          .ok ⟨probe_link url wid idx 1, some d⟩ :=
        fetch_image_ok env _ _ _ _ hwin
      obtain ⟨e0, he0⟩ := fetch_image_not_ok env _ _ (hlose 0 (by decide))
      unfold fetch_image_data
      dsimp only
      rw [probe_links_eq]
      dsimp only [List.map]
      rw [he0, hfi]
      dsimp only [first_ok]
      exact ⟨rfl, List.mem_append_right _ (List.mem_singleton.mpr rfl)⟩
    · have hfi : fetch_image env (probe_link url wid idx 2) (referer_string wid) =
          .ok ⟨probe_link url wid idx 2, some d⟩ :=
        fetch_image_ok env _ _ _ _ hwin
      obtain ⟨e0, he0⟩ := fetch_image_not_ok env _ _ (hlose 0 (by decide))
      obtain ⟨e1, he1⟩ := fetch_image_not_ok env _ _ (hlose 1 (by decide))
      unfold fetch_image_data
      dsimp only
      rw [probe_links_eq]
      dsimp only [List.map]
      rw [he0, he1, hfi]
      dsimp only [first_ok]
      exact ⟨rfl, List.mem_append_right _ (List.mem_singleton.mpr rfl)⟩
  · intro hall
    obtain ⟨e0, he0⟩ := fetch_image_not_ok env _ _ (hall 0)
    obtain ⟨e1, he1⟩ := fetch_image_not_ok env _ _ (hall 1)
    obtain ⟨e2, he2⟩ := fetch_image_not_ok env _ _ (hall 2)
    unfold fetch_image_data
    dsimp only
    rw [probe_links_eq]
    dsimp only [List.map]
    rw [he0, he1, he2]
    dsimp only [first_ok]

/-- Witness for claim C5: the middle position (png) wins the probe and its
URL is the cached value. -/
theorem c5_witness :
    (fetch_image_data c5_env c5_url 55 1 false true).1 = .ok ("55_p0.png", "B5") ∧
    Effect.redisSet "55_1" "https://i.example/img-original/img/55_p0.png" none ∈
      (fetch_image_data c5_env c5_url 55 1 false true).2 := by
  have h := (c5_probe_law c5_env c5_url 55 1).1 1 "B5" (by decide) (by decide)
  exact ⟨h.1.trans (by decide), h.2⟩

/-- Claim C6, counterexample.  The claim states the resolved URL is stored
with a TTL of 31536000 seconds; the code issues a plain SET with no expiry:
in a successful fresh resolution, the only cache write in the trace carries
expiry `none`, and no write carrying `some 31536000` occurs. -/
theorem c6_set_has_no_expiry_run :
    get_image_data c6_env 77 1 =
      (.ok (generate_http_headers "77_p0.jpg" "image/jpeg", "B6"),
       [.cacheGet "77_1", .metaGet 77,
        .assetGet ⟨"https://i.example/img/77_p0.jpg", referer_string 77⟩,
        .redisSet "77_1" "https://i.example/img/77_p0.jpg" none]) ∧
    Effect.redisSet "77_1" "https://i.example/img/77_p0.jpg" (some 31536000) ∉
      (get_image_data c6_env 77 1).2 := by
  refine ⟨by decide, by decide⟩

/-- Claim C6, amended.  Every cache write the pipeline issues targets the key
`{work_id}_{index}` and carries no expiry (the entry persists until
explicitly deleted), and a successful fresh Case A resolution does issue such
a write of the resolved URL. -/
theorem c6_cache_set_without_ttl (env : Env) (wid idx : Nat) :
    (∀ k v x, Effect.redisSet k v x ∈ (get_image_data env wid idx).2 →
      k = cache_entry_name wid idx ∧ x = none) ∧
    (∀ w link d, env.cache (cache_entry_name wid idx) = none →
      env.meta wid = .decoded ⟨false, .Success w⟩ →
      idx ≠ 0 → ¬ idx > u16_sub_one w.num_entries →
      w.urls.original = some link →
      env.http ⟨link, referer_string wid⟩ = .resp 200 link (some d) →
      Effect.redisSet (cache_entry_name wid idx) link none ∈
        (get_image_data env wid idx).2) := by
  constructor
  · intro k v x hmem
    rcases get_image_data_trace env wid idx _ hmem with h | h | h | ⟨r, h, _⟩ | ⟨v2, h⟩
    · exact absurd h (by simp)
    · exact absurd h (by simp)
    · exact absurd h (by simp)
    · exact absurd h (by simp)
    · injection h with h1 h2 h3
      exact ⟨h1, h3⟩
  · intro w link d hc hm h0 hg hu hh
    rw [get_image_data_case_a env wid idx w link d h0 hc hm hg hu hh]
    simp

/-- Witness for claim C6: the successful run of work 77 stores the resolved
URL under its key with no expiry. -/
theorem c6_witness :
    Effect.redisSet (cache_entry_name 77 1) "https://i.example/img/77_p0.jpg" none ∈
      (get_image_data c6_env 77 1).2 :=
  (c6_cache_set_without_ttl c6_env 77 1).2 c6_work "https://i.example/img/77_p0.jpg" "B6"
    rfl (by decide) (by decide) (by decide) rfl (by decide)

/-- Claim C7.  Every asset request issued by any run of the pipeline — the
cache-hit verify, the Case A direct fetch, and each of the three Case B
probes — carries the `Referer` header value
`https://www.pixiv.net/member_illust.php?mode=medium&illust_id={work_id}`. -/
theorem c7_referer_on_every_asset_fetch (env : Env) (wid idx : Nat) :
    (∀ req : Request, Effect.assetGet req ∈ (get_image_data env wid idx).2 →
      req.referer = referer_string wid) ∧
    referer_string wid =
      "https://www.pixiv.net/member_illust.php?mode=medium&illust_id=" ++ toString wid := by
  constructor
  · intro req hmem
    rcases get_image_data_trace env wid idx _ hmem with h | h | h | ⟨r, h, hr⟩ | ⟨v, h⟩
    · exact absurd h (by simp)
    · exact absurd h (by simp)
    · exact absurd h (by simp)
    · injection h with h1
      rw [h1]
      exact hr
    · exact absurd h (by simp)
  · rfl

/-- Witness for claim C7: the verify fetch of a cache hit carries the
referer of work 3. -/
theorem c7_witness :
    Effect.assetGet ⟨"https://i.example/x/3_p0.gif", referer_string 3⟩ ∈
      (get_image_data c7_env 3 1).2 ∧
    Request.referer ⟨"https://i.example/x/3_p0.gif", referer_string 3⟩ = referer_string 3 := by
  refine ⟨by decide, ?_⟩
  exact (c7_referer_on_every_asset_fetch c7_env 3 1).1 _ (by decide)

/-- Claim C8, counterexample.  The claim states that `GET /{work_id}` returns
the resolved direct asset URL of the first image; the handler returns a
metadata summary in which that URL occurs nowhere, although the metadata
carries it. -/
theorem c8_info_lacks_asset_url :
    c8_work.urls.original = some "https://i.example/img/321_p0.png" ∧
    (info c8_env (some 321)).1 = .ok (c8_payload, "application/json; charset=utf-8") ∧
    info_mentions_url c8_payload "https://i.example/img/321_p0.png" = false := by
  refine ⟨rfl, by decide, by decide⟩

/-- Claim C8, amended.  `GET /{work_id}` with reachable metadata returns a
JSON metadata summary — artist name, parsed artist id, work id, title,
upload time, and the corrected image count — never an asset URL; a failed
path parse yields `InvalidUrl`. -/
theorem c8_info_returns_metadata_summary (env : Env) (wid : Nat) (w : WorkInfo)
    (hm : env.meta wid = .decoded ⟨false, .Success w⟩) :
    info env (some wid) =
      (.ok ({ artist_name := w.user_name, artist_id := parse_u32 w.user_id,
              work_id := wid, title := w.illust_title, upload_time := w.upload_date,
              length := u16_sub_one w.num_entries },
            "application/json; charset=utf-8"),
       [.metaGet wid]) ∧
    info env none = (.error .InvalidUrl, []) :=
  ⟨info_ok env wid w hm, rfl⟩

/-- Witness for claim C8: the metadata summary returned for work 321. -/
theorem c8_witness :
    info c8_env (some 321) =
      (.ok (c8_payload, "application/json; charset=utf-8"), [.metaGet 321]) := by
  have h := (c8_info_returns_metadata_summary c8_env 321 c8_work (by decide)).1
  exact h.trans (by decide)

/-- Claim C9, counterexample.  The claim states the rendered `TooHighQuery`
message states the exact maximum for every max including 0; for max 0 the
code renders the singular sentence stating 1 — identical to the max 1
message and containing no zero at all. -/
theorem c9_zero_max_message :
    (error_response (.TooHighQuery 0)).2 =
      "The index of the requested image is too high; there is 1 image in this collection." ∧
    '0' ∉ ((error_response (.TooHighQuery 0)).2).data ∧
    (error_response (.TooHighQuery 0)).2 = (error_response (.TooHighQuery 1)).2 := by
  refine ⟨by decide, by decide, by decide⟩

/-- Claim C9, amended.  For max at least 2 the message states exactly max
with plural phrasing; for max 1 it is the singular sentence stating 1; for
max 0 the code renders the same singular sentence as max 1, so the stated
count matches max only for max at least 1. -/
theorem c9_message_states_max :
    (∀ m : Nat, 2 ≤ m →
      (error_response (.TooHighQuery m)).2 =
        "The index of the requested image is too high; there are " ++ toString m ++
          " images in this collection.") ∧
    (error_response (.TooHighQuery 1)).2 =
      "The index of the requested image is too high; there is 1 image in this collection." ∧
    (error_response (.TooHighQuery 0)).2 = (error_response (.TooHighQuery 1)).2 := by
  refine ⟨?_, by decide, by decide⟩
  intro m hm
  unfold error_response
  dsimp only
  rw [if_pos (show m > 1 by omega)]

/-- Witness for claim C9: the plural message at max 5. -/
theorem c9_witness :
    (error_response (.TooHighQuery 5)).2 =
      "The index of the requested image is too high; there are 5 images in this collection." := by
  have h := c9_message_states_max.1 5 (by decide)
  exact h.trans (by decide)

/-- Claim C10.  The off-by-one correction `num_entries - 1` is an unguarded
`u16` subtraction, so it carries the unstated precondition that at least one
entry is reported: for 1 to 65535 entries it computes the corrected count,
but at `sl = 0` it wraps to 65535 instead of a well-defined count — the
`info` handler then reports length 65535, and the orchestrator validation
accepts every representable index (no `TooHighQuery` is possible) for a work
whose metadata reports zero entries. -/
theorem c10_entry_count_underflow :
    (∀ n : Nat, 1 ≤ n → n ≤ 65535 → u16_sub_one n = n - 1) ∧
    u16_sub_one 0 = 65535 ∧
    (∀ (env : Env) (wid : Nat) (w : WorkInfo),
      env.meta wid = .decoded ⟨false, .Success w⟩ → w.num_entries = 0 →
      (info env (some wid)).1 =
        .ok ({ artist_name := w.user_name, artist_id := parse_u32 w.user_id,
               work_id := wid, title := w.illust_title, upload_time := w.upload_date,
               length := 65535 }, "application/json; charset=utf-8")) ∧
    (∀ (env : Env) (wid idx : Nat) (w : WorkInfo),
      env.cache (cache_entry_name wid idx) = none →
      env.meta wid = .decoded ⟨false, .Success w⟩ → w.num_entries = 0 →
      1 ≤ idx → idx ≤ 65535 →
      ∀ m, (get_image_data env wid idx).1 ≠ .error (.TooHighQuery m)) := by
  refine ⟨fun n h1 h2 => u16_sub_one_eq h1 h2, rfl, ?_, ?_⟩
  · intro env wid w hm h0
    rw [info_ok env wid w hm]
    dsimp only
    rw [h0]
    rfl
  · intro env wid idx w hc hm h0 h1 h2 m
    have hfw : fetch_work_info (env.meta wid) = .ok w := by
      rw [hm]
      rfl
    have hid0 : idx ≠ 0 := by omega
    have hguard : ¬ idx > u16_sub_one w.num_entries := by
      rw [h0]
      unfold u16_sub_one
      omega
    unfold get_image_data
    rw [if_neg hid0]
    dsimp only
    rw [hc, hfw]
    dsimp only
    rw [if_neg hguard]
    cases hu : w.urls.original with
    | some link =>
      dsimp only
      rcases hfid : fetch_image_data env link wid idx true true with ⟨r, t⟩
      cases r with
      | ok val =>
        rcases val with ⟨fn, d⟩
        dsimp only
        simp
      | error err =>
        dsimp only
        have hne := fetch_image_data_ne_toohigh env link wid idx true true m
        rw [hfid] at hne
        simpa using hne
    | none =>
      cases hl : List.lookup (toString wid) w.user_illusts with
      | none =>
        dsimp only
        simp
      | some o =>
        cases o with
        | none =>
          dsimp only
          simp
        | some other =>
          dsimp only
          rcases hfid : fetch_image_data env (thumb_to_original other.url) wid idx false true
            with ⟨r, t⟩
          cases r with
          | ok val =>
            rcases val with ⟨fn, d⟩
            dsimp only
            simp
          | error err =>
            dsimp only
            have hne := fetch_image_data_ne_toohigh env (thumb_to_original other.url) wid idx
              false true m
            rw [hfid] at hne
            simpa using hne

/-- Witness for claim C10: at `sl = 0` the info handler reports length 65535,
and index 1 of the zero-entry work is not rejected as too high. -/
theorem c10_witness :
    u16_sub_one 1 = 0 ∧
    (info c10_env (some 4)).1 =
      .ok ({ artist_name := "eve", artist_id := some 2, work_id := 4,
             title := "T10", upload_time := "D10", length := 65535 },
           "application/json; charset=utf-8") ∧
    (get_image_data c10_env 4 1).1 ≠ .error (.TooHighQuery 65535) := by
  refine ⟨?_, ?_, ?_⟩
  · exact c10_entry_count_underflow.1 1 (by decide) (by decide)
  · exact (c10_entry_count_underflow.2.2.1 c10_env 4 c10_work (by decide) rfl).trans (by decide)
  · exact c10_entry_count_underflow.2.2.2 c10_env 4 1 c10_work rfl (by decide) rfl (by decide)
      (by decide) 65535

end Pixum
